import Mathlib

/-!
Shallow embedding of the `agoraoracle` backend (FastAPI + SQLModel CRUD
service over two tables, `users` and `waitlist_signups`).

Timestamps are modelled as `Int` seconds (so 24 hours = 86400 and
7 days = 604800).  The two floating-point telemetry fields
(`final_bankroll`, `win_rate`) are carried as `Option Int` payloads: no
handler ever computes with them, they are stored and echoed back verbatim,
so only their presence matters to any property here.

The relational store is a pair of row lists together with the next value
of each table's serial primary-key sequence (PostgreSQL serials start
at 1, see `Store.empty`).
-/

/-- Row of the `users` table (`app/models/user.py`, class `User`):
`id` serial primary key, unique indexed `email`, optional `full_name`,
`created_at` and `updated_at` both set from `datetime.utcnow` at insert. -/
structure UserRow where
  id : Nat
  email : String
  full_name : Option String
  created_at : Int
  updated_at : Int
  deriving DecidableEq

/-- Request body of `POST /api/users/` (`UserCreate` = `UserBase`):
required `email`, optional `full_name`. -/
structure UserCreate where
  email : String
  full_name : Option String
  deriving DecidableEq

/-- Row of the `waitlist_signups` table (`app/models/waitlist.py`, class
`WaitlistSignup`): serial `id`, unique indexed `email`, optional `source`
(default "landing_page"), optional game-telemetry fields, `created_at`
set from `datetime.utcnow` at insert. -/
structure SignupRow where
  id : Nat
  email : String
  source : Option String
  game_played : Option Bool
  final_bankroll : Option Int
  total_bets : Option Int
  win_rate : Option Int
  created_at : Int
  deriving DecidableEq

/-- Request body of `POST /api/waitlist/` (`WaitlistSignupCreate` =
`WaitlistSignupBase`): everything but the server-generated `id` and
`created_at`. -/
structure WaitlistSignupCreate where
  email : String
  source : Option String
  game_played : Option Bool
  final_bankroll : Option Int
  total_bets : Option Int
  win_rate : Option Int
  deriving DecidableEq

/-- The response of `GET /api/waitlist/stats`
(`WaitlistStatsResponse` in `app/models/waitlist.py`). -/
structure WaitlistStatsResponse where
  total_signups : Nat
  recent_signups_24h : Nat
  recent_signups_7d : Nat
  deriving DecidableEq

/-- The `{"deleted": True}` confirmation returned by
`DELETE /api/users/{user_id}`. -/
structure DeleteResponse where
  deleted : Bool
  deriving DecidableEq

/-- Errors escaping a handler.  `http` is a `fastapi.HTTPException`
raised (and structured) at the handler boundary; `storeError` is a
database-level exception (e.g. an asyncpg unique-constraint violation or
a negative OFFSET/LIMIT) that no handler catches, so it propagates as an
unhandled internal failure. -/
inductive ApiError where
  | http (status : Nat) (detail : String)
  | storeError (msg : String)
  deriving DecidableEq

/-- The database state: the two tables plus each table's serial
primary-key sequence counter. -/
structure Store where
  users : List UserRow
  signups : List SignupRow
  nextUserId : Nat
  nextSignupId : Nat
  deriving DecidableEq

/-- A freshly created database (`SQLModel.metadata.create_all`):
empty tables, serial sequences starting at 1. -/
def Store.empty : Store :=
  { users := [], signups := [], nextUserId := 1, nextSignupId := 1 }

/-- Primary-key lookup `session.get(User, user_id)` in the `users`
table. -/
def findUser (s : Store) (i : Nat) : Option UserRow :=
  s.users.find? (fun r => r.id == i)

/-- Embeds `User.from_orm(user)` followed by the commit and refresh: the
persisted row carries the request fields plus the generated serial id
and the `created_at`/`updated_at` defaults (both `datetime.utcnow`). -/
def userRowOf (now : Int) (u : UserCreate) (i : Nat) : UserRow :=
  { id := i, email := u.email, full_name := u.full_name
  , created_at := now, updated_at := now }

/-- Handler for `POST /api/users/` (`create_user` in `app/api/users.py`).  The handler
performs no duplicate pre-check: it adds the row and commits.  The `if`
branch embeds the store-level unique constraint on `users.email`
(`Field(unique=True)` in `UserBase`): when a row with the same email
exists, the commit raises an IntegrityError that the handler does not
catch, surfacing as `ApiError.storeError`.  Otherwise the row is
persisted with a generated serial id and both timestamps set to the
current instant, and returned. -/
def create_user (now : Int) (u : UserCreate) (s : Store) :
    Except ApiError UserRow × Store :=
  if s.users.any (fun r => r.email == u.email) then
    (.error (.storeError "duplicate key value violates unique constraint users_email_key"), s)
  else
    let row : UserRow := userRowOf now u s.nextUserId
    (.ok row, { s with users := s.users ++ [row], nextUserId := s.nextUserId + 1 })

/-- Handler for `GET /api/users/` (`list_users`): all rows, store-default order,
no pagination. -/
def list_users (s : Store) : List UserRow :=
  s.users

/-- Handler for `GET /api/users/{user_id}` (`get_user`): primary-key lookup,
404 when absent. -/
def get_user (i : Nat) (s : Store) : Except ApiError UserRow :=
  match findUser s i with
  | none => .error (.http 404 "User not found")
  | some r => .ok r

/-- Handler for `DELETE /api/users/{user_id}` (`delete_user`): primary-key lookup,
404 when absent; otherwise `session.delete` removes that fetched row
(`List.eraseP` deletes the first — under the primary-key invariant the
only — row with that id) and `{"deleted": True}` is returned. -/
def delete_user (i : Nat) (s : Store) :
    Except ApiError DeleteResponse × Store :=
  match findUser s i with
  | none => (.error (.http 404 "User not found"), s)
  | some _ =>
    (.ok { deleted := true }, { s with users := s.users.eraseP (fun r => r.id == i) })

/-- The `status_code=201` argument of the `POST /api/waitlist/` route
decorator: the HTTP status sent on the success path. -/
def create_waitlist_signup_status_code : Nat := 201

/-- Embeds `WaitlistSignup.model_validate(signup)` followed by the commit and
refresh: the persisted row carries the request's fields plus the
generated serial id and the `created_at` default (`datetime.utcnow`). -/
def signupRowOf (now : Int) (inp : WaitlistSignupCreate) (i : Nat) : SignupRow :=
  { id := i, email := inp.email, source := inp.source
  , game_played := inp.game_played, final_bankroll := inp.final_bankroll
  , total_bets := inp.total_bets, win_rate := inp.win_rate
  , created_at := now }

/-- Handler for `POST /api/waitlist/` (`create_waitlist_signup` in
`app/api/waitlist.py`).  Algorithm of the source: select the row with
the same email (`scalar_one_or_none`, modelled by `List.find?`; the
multiple-rows exception cannot fire under the unique constraint); if one
exists raise `HTTPException(400, "Email already registered on waitlist")`;
otherwise insert the new row, commit and return it refreshed with its
generated serial id and `created_at`. -/
def create_waitlist_signup (now : Int) (inp : WaitlistSignupCreate) (s : Store) :
    Except ApiError SignupRow × Store :=
  match s.signups.find? (fun r => r.email == inp.email) with
  | some _ => (.error (.http 400 "Email already registered on waitlist"), s)
  | none =>
    let row : SignupRow := signupRowOf now inp s.nextSignupId
    (.ok row, { s with signups := s.signups ++ [row], nextSignupId := s.nextSignupId + 1 })

/-- Handler for `GET /api/waitlist/stats` (`get_waitlist_stats`).  The source calls
`datetime.utcnow()` twice — once to form `twenty_four_hours_ago = now -
24h` and once, after the 24-hour count query, to form `seven_days_ago =
now - 7d` — so the two window anchors are distinct clock reads, passed
here as `now24` and `now7`.  Each statistic is an independent COUNT
query: all rows, rows with `created_at >= now24 - 86400`, rows with
`created_at >= now7 - 604800`. -/
def get_waitlist_stats (now24 now7 : Int) (s : Store) : WaitlistStatsResponse :=
  { total_signups := s.signups.length
  , recent_signups_24h := s.signups.countP (fun r => now24 - 86400 ≤ r.created_at)
  , recent_signups_7d := s.signups.countP (fun r => now7 - 604800 ≤ r.created_at) }

/-- Insert one row into a list already sorted by `created_at`
descending, keeping it sorted (helper for the ORDER BY embedding). -/
def insertByCreatedDesc (r : SignupRow) : List SignupRow → List SignupRow
  | [] => [r]
  | x :: xs =>
    if r.created_at ≤ x.created_at then x :: insertByCreatedDesc r xs
    else r :: x :: xs

/-- Embeds `ORDER BY waitlist_signups.created_at DESC`: sort the table rows by
creation time, newest first (insertion sort; the relative order of
equal timestamps is unspecified in SQL and irrelevant to the claims,
which use strictly ordered timestamps). -/
def sortByCreatedDesc : List SignupRow → List SignupRow
  | [] => []
  | x :: xs => insertByCreatedDesc x (sortByCreatedDesc xs)

/-- Handler for `GET /api/waitlist/?skip=&limit=` (`list_waitlist_signups`).  The
route declares `skip: int = 0, limit: int = 100` with no bound
annotations, so any integers pass request validation and reach the
query; PostgreSQL then rejects a negative OFFSET or LIMIT with an error
the handler does not catch (`ApiError.storeError`).  For non-negative
values: rows ordered by `created_at` descending, the first `skip`
dropped, at most `limit` returned.  No upper bound on `limit` exists. -/
def list_waitlist_signups (skip limit : Int) (s : Store) :
    Except ApiError (List SignupRow) :=
  if skip < 0 then .error (.storeError "OFFSET must not be negative")
  else if limit < 0 then .error (.storeError "LIMIT must not be negative")
  else .ok (((sortByCreatedDesc s.signups).drop skip.toNat).take limit.toNat)

/-- One invocation of any route handler of the service, with the inputs
it needs (clock reads included), used to quantify over "any handler". -/
inductive Handler where
  | createUser (now : Int) (u : UserCreate)
  | listUsers
  | getUser (i : Nat)
  | deleteUser (i : Nat)
  | createSignup (now : Int) (inp : WaitlistSignupCreate)
  | waitlistStats (now24 now7 : Int)
  | listSignups (skip limit : Int)

/-- The store state after running a handler (read-only handlers leave
the store as is). -/
def Handler.run : Handler → Store → Store
  | .createUser now u, s => (create_user now u s).2
  | .listUsers, s => s
  | .getUser _, s => s
  | .deleteUser i, s => (delete_user i s).2
  | .createSignup now inp, s => (create_waitlist_signup now inp s).2
  | .waitlistStats _ _, s => s
  | .listSignups _ _, s => s

/-! Concrete sample data used to instantiate the theorems below. -/

/-- A sample waitlist signup request for email "a@x.com". -/
def sampleSignupInput : WaitlistSignupCreate :=
  { email := "a@x.com", source := some "landing_page", game_played := some false
  , final_bankroll := none, total_bets := none, win_rate := none }

/-- A persisted signup row with a given id, email and creation time. -/
def mkSignupRow (i : Nat) (e : String) (t : Int) : SignupRow :=
  { id := i, email := e, source := some "landing_page", game_played := some false
  , final_bankroll := none, total_bets := none, win_rate := none, created_at := t }

/-- A store holding exactly one waitlist signup, for email "a@x.com". -/
def storeOneSignup : Store :=
  { users := [], signups := [mkSignupRow 1 "a@x.com" 0]
  , nextUserId := 1, nextSignupId := 2 }

/-- A store holding three signups e1, e2, e3 created in that order. -/
def storeThreeSignups : Store :=
  { users := []
  , signups := [mkSignupRow 1 "e1@x.com" 100, mkSignupRow 2 "e2@x.com" 200,
      mkSignupRow 3 "e3@x.com" 300]
  , nextUserId := 1, nextSignupId := 4 }

/-- A store holding two signups created at time 1000000 and one created
ten days (864000 s) earlier. -/
def storeStatsSample : Store :=
  { users := []
  , signups := [mkSignupRow 1 "e1@x.com" 1000000, mkSignupRow 2 "e2@x.com" 1000000,
      mkSignupRow 3 "e3@x.com" 136000]
  , nextUserId := 1, nextSignupId := 4 }

/-- A sample user-creation request for email "u@x.com". -/
def sampleUserInput : UserCreate :=
  { email := "u@x.com", full_name := none }

/-- A persisted user row with id 1 and email "u@x.com". -/
def userRowOne : UserRow :=
  { id := 1, email := "u@x.com", full_name := none, created_at := 50, updated_at := 50 }

/-- A store holding exactly one user (id 1, email "u@x.com"). -/
def storeOneUser : Store :=
  { users := [userRowOne], signups := [mkSignupRow 1 "a@x.com" 0]
  , nextUserId := 2, nextSignupId := 2 }

/-! Helper lemmas shared by the claim theorems. -/

/-- If a list has at most one element satisfying `p`, then after erasing
the first such element no element satisfying `p` remains. -/
theorem find?_eraseP_eq_none {α : Type} (p : α → Bool) (l : List α)
    (h : l.countP p ≤ 1) : (l.eraseP p).find? p = none := by
  rw [List.find?_eq_none]
  intro x hx hpx
  by_cases hex : ∃ a ∈ l, p a
  · obtain ⟨a, ha, hpa⟩ := hex
    obtain ⟨a', l₁, l₂, hnl₁, hpa', hdecomp, herase⟩ := List.exists_of_eraseP ha hpa
    rw [herase] at hx
    rcases List.mem_append.mp hx with h1 | h2
    · exact hnl₁ x h1 hpx
    · have hcount : l.countP p = l₁.countP p + (1 + l₂.countP p) := by
        rw [hdecomp]
        simp [List.countP_cons, hpa']
        omega
      have hl₂ : l₂.countP p = 0 := by omega
      exact (List.countP_eq_zero.mp hl₂) x h2 hpx
  · push_neg at hex
    rw [List.eraseP_of_forall_not (fun a ha => hex a ha)] at hx
    exact hex x hx hpx

/-- Claim C1: in any store already holding exactly one waitlist signup
with the requested email, `create_waitlist_signup` fails with the
Duplicate-Email client error (HTTP 400, "Email already registered on
waitlist"), returns the store unchanged, and exactly one row with that
email exists afterwards. -/
theorem waitlist_duplicate_email_rejected (now : Int) (inp : WaitlistSignupCreate)
    (s : Store) (hone : s.signups.countP (fun r => r.email == inp.email) = 1) :
    create_waitlist_signup now inp s =
      (.error (.http 400 "Email already registered on waitlist"), s) ∧
    (create_waitlist_signup now inp s).2.signups.countP
      (fun r => r.email == inp.email) = 1 := by
  have hpos : 0 < s.signups.countP (fun r => r.email == inp.email) := by omega
  have hex := List.countP_pos_iff.mp hpos
  have hsome : (s.signups.find? (fun r => r.email == inp.email)).isSome := by
    rw [List.find?_isSome]
    obtain ⟨a, ha, hpa⟩ := hex
    exact ⟨a, ha, hpa⟩
  obtain ⟨r, hr⟩ := Option.isSome_iff_exists.mp hsome
  constructor
  · simp [create_waitlist_signup, hr]
  · simp [create_waitlist_signup, hr, hone]

/-- Witness for C1 at a concrete duplicate signup. -/
theorem waitlist_duplicate_email_rejected_witness :
    create_waitlist_signup 5 sampleSignupInput storeOneSignup =
      (.error (.http 400 "Email already registered on waitlist"), storeOneSignup) ∧
    (create_waitlist_signup 5 sampleSignupInput storeOneSignup).2.signups.countP
      (fun r => r.email == sampleSignupInput.email) = 1 :=
  waitlist_duplicate_email_rejected 5 sampleSignupInput storeOneSignup rfl

/-- Claim C4: in any store with no waitlist signup for the requested
email, `create_waitlist_signup` succeeds (the route's success status is
201), appends exactly one new row, and returns that row carrying the
server-generated serial id and `created_at` timestamp. -/
theorem waitlist_create_fresh_email_inserts (now : Int) (inp : WaitlistSignupCreate)
    (s : Store) (hfresh : ∀ r ∈ s.signups, r.email ≠ inp.email) :
    ∃ row s', create_waitlist_signup now inp s = (.ok row, s') ∧
      row.id = s.nextSignupId ∧ row.created_at = now ∧ row.email = inp.email ∧
      s'.signups = s.signups ++ [row] ∧
      s'.signups.length = s.signups.length + 1 ∧
      create_waitlist_signup_status_code = 201 := by
  have hfind : s.signups.find? (fun r => r.email == inp.email) = none := by
    rw [List.find?_eq_none]
    intro x hx
    simpa using hfresh x hx
  refine ⟨signupRowOf now inp s.nextSignupId,
          { s with
              signups := s.signups ++ [signupRowOf now inp s.nextSignupId],
              nextSignupId := s.nextSignupId + 1 },
          ?_, rfl, rfl, rfl, rfl, by simp, rfl⟩
  simp [create_waitlist_signup, hfind]

/-- Witness for C4: creating "a@x.com" in the empty store. -/
theorem waitlist_create_fresh_email_inserts_witness :
    ∃ row s', create_waitlist_signup 5 sampleSignupInput Store.empty = (.ok row, s') ∧
      row.id = Store.empty.nextSignupId ∧ row.created_at = 5 ∧
      row.email = sampleSignupInput.email ∧
      s'.signups = Store.empty.signups ++ [row] ∧
      s'.signups.length = Store.empty.signups.length + 1 ∧
      create_waitlist_signup_status_code = 201 :=
  waitlist_create_fresh_email_inserts 5 sampleSignupInput Store.empty (by decide)

/-- Claim C2: `get_waitlist_stats` counts all rows, rows created within
the last 24 hours, and rows created within the last 7 days of the
request time; for a store holding two signups created at the request
instant and one created 10 days before it, it returns `total_signups=3`,
`recent_signups_24h=2`, `recent_signups_7d=2`. -/
theorem waitlist_stats_three_signups (now : Int) (r1 r2 r3 : SignupRow) (s : Store)
    (hs : s.signups = [r1, r2, r3])
    (h1 : r1.created_at = now) (h2 : r2.created_at = now)
    (h3 : r3.created_at = now - 10 * 86400) :
    get_waitlist_stats now now s =
      { total_signups := 3, recent_signups_24h := 2, recent_signups_7d := 2 } := by
  have c24a : now - 86400 ≤ now := by omega
  have c24b : ¬ (now - 86400 ≤ now - 10 * 86400) := by omega
  have c7a : now - 604800 ≤ now := by omega
  have c7b : ¬ (now - 604800 ≤ now - 10 * 86400) := by omega
  simp [get_waitlist_stats, hs, List.countP_cons, h1, h2, h3, c24a, c24b, c7a, c7b]
  omega

/-- Witness for C2: two signups at time 1000000, one at 136000. -/
theorem waitlist_stats_three_signups_witness :
    get_waitlist_stats 1000000 1000000 storeStatsSample =
      { total_signups := 3, recent_signups_24h := 2, recent_signups_7d := 2 } :=
  waitlist_stats_three_signups 1000000 (mkSignupRow 1 "e1@x.com" 1000000)
    (mkSignupRow 2 "e2@x.com" 1000000) (mkSignupRow 3 "e3@x.com" 136000)
    storeStatsSample rfl rfl rfl (by decide)

/-- Claim C10: for every store state, the stats satisfy
`recent_signups_24h ≤ recent_signups_7d ≤ total_signups`, because the
24-hour rows are a subset of the 7-day rows, which are a subset of all
rows.  The hypothesis bounds the distance between the two clock reads of
the source (`datetime.utcnow()` is read once per window): within one
request they lie far less than the 6-day slack apart. -/
theorem waitlist_stats_monotone (now24 now7 : Int) (s : Store)
    (hgap : now7 ≤ now24 + 518400) :
    (get_waitlist_stats now24 now7 s).recent_signups_24h ≤
      (get_waitlist_stats now24 now7 s).recent_signups_7d ∧
    (get_waitlist_stats now24 now7 s).recent_signups_7d ≤
      (get_waitlist_stats now24 now7 s).total_signups := by
  constructor
  · apply List.countP_mono_left
    intro r _ h
    simp only [decide_eq_true_eq] at h ⊢
    omega
  · exact List.countP_le_length _

/-- Witness for C10 on the concrete three-signup store. -/
theorem waitlist_stats_monotone_witness :
    (get_waitlist_stats 1000000 1000000 storeStatsSample).recent_signups_24h ≤
      (get_waitlist_stats 1000000 1000000 storeStatsSample).recent_signups_7d ∧
    (get_waitlist_stats 1000000 1000000 storeStatsSample).recent_signups_7d ≤
      (get_waitlist_stats 1000000 1000000 storeStatsSample).total_signups :=
  waitlist_stats_monotone 1000000 1000000 storeStatsSample (by omega)

/-- Claim C3: `list_waitlist_signups` returns the rows ordered by
`created_at` descending, skipping `skip` rows and returning at most
`limit`; for every store holding exactly three signups created in order
(strictly increasing `created_at`), `skip=1, limit=1` returns exactly
the second-newest row. -/
theorem list_signups_skip_one_limit_one (s : Store) (r1 r2 r3 : SignupRow)
    (hs : s.signups = [r1, r2, r3])
    (h12 : r1.created_at < r2.created_at) (h23 : r2.created_at < r3.created_at) :
    list_waitlist_signups 1 1 s = .ok [r2] := by
  have ha : r2.created_at ≤ r3.created_at := le_of_lt h23
  have hb : r1.created_at ≤ r2.created_at := le_of_lt h12
  have hc : r1.created_at ≤ r3.created_at := le_of_lt (h12.trans h23)
  simp [list_waitlist_signups, sortByCreatedDesc, insertByCreatedDesc, hs, ha, hb, hc]

/-- Witness for C3: three concrete signups created at times 100, 200,
300; the page is the row created at 200. -/
theorem list_signups_skip_one_limit_one_witness :
    list_waitlist_signups 1 1 storeThreeSignups = .ok [mkSignupRow 2 "e2@x.com" 200] :=
  list_signups_skip_one_limit_one storeThreeSignups
    (mkSignupRow 1 "e1@x.com" 100) (mkSignupRow 2 "e2@x.com" 200)
    (mkSignupRow 3 "e3@x.com" 300) rfl (by decide) (by decide)

/-- Claim C9: `list_waitlist_signups` accepts every pair of non-negative
`skip`/`limit` values — the page it returns holds at most `limit` rows
but no server-side maximum on `limit` exists — while values outside the
non-negative integers never produce a listing (they pass the route's
`int` validation but the store rejects a negative OFFSET or LIMIT, an
error no handler catches). -/
theorem list_signups_pagination_domain (skip limit : Int) (s : Store) :
    (0 ≤ skip → 0 ≤ limit →
      ∃ rows, list_waitlist_signups skip limit s = .ok rows ∧
        rows.length ≤ limit.toNat) ∧
    (skip < 0 ∨ limit < 0 →
      ∀ rows, list_waitlist_signups skip limit s ≠ .ok rows) := by
  constructor
  · intro hsk hl
    refine ⟨((sortByCreatedDesc s.signups).drop skip.toNat).take limit.toNat, ?_, ?_⟩
    · simp [list_waitlist_signups, not_lt.mpr hsk, not_lt.mpr hl]
    · simp [List.length_take]
  · rintro (h | h) rows
    · simp [list_waitlist_signups, h]
    · by_cases hsk : skip < 0
      · simp [list_waitlist_signups, hsk]
      · simp [list_waitlist_signups, hsk, h]

/-- Witness for C9: a huge limit is accepted, and a negative skip is
never answered with a listing. -/
theorem list_signups_pagination_domain_witness :
    (0 ≤ (0 : Int) → 0 ≤ (1000000000 : Int) →
      ∃ rows, list_waitlist_signups 0 1000000000 storeThreeSignups = .ok rows ∧
        rows.length ≤ (1000000000 : Int).toNat) ∧
    ((0 : Int) < 0 ∨ (1000000000 : Int) < 0 →
      ∀ rows, list_waitlist_signups 0 1000000000 storeThreeSignups ≠ .ok rows) :=
  list_signups_pagination_domain 0 1000000000 storeThreeSignups

/-- Claim C7: when a user with the requested email already exists,
`create_user` — which performs no existence pre-check — fails with the
store's unique-constraint violation, which no application code catches:
the failure is an `ApiError.storeError`, never a structured
`ApiError.http` client error (of any status). -/
theorem user_create_duplicate_unhandled (now : Int) (u : UserCreate) (s : Store)
    (hdup : ∃ r ∈ s.users, r.email = u.email) :
    create_user now u s =
      (.error (.storeError "duplicate key value violates unique constraint users_email_key"), s) ∧
    ∀ status detail, (create_user now u s).1 ≠ .error (.http status detail) := by
  have hany : s.users.any (fun r => r.email == u.email) = true := by
    rw [List.any_eq_true]
    obtain ⟨r, hr, he⟩ := hdup
    exact ⟨r, hr, by simpa using he⟩
  constructor
  · simp [create_user, hany]
  · intro st d
    simp [create_user, hany]

/-- Witness for C7: re-creating the already present "u@x.com" user. -/
theorem user_create_duplicate_unhandled_witness :
    create_user 9 sampleUserInput storeOneUser =
      (.error (.storeError "duplicate key value violates unique constraint users_email_key"), storeOneUser) ∧
    ∀ status detail,
      (create_user 9 sampleUserInput storeOneUser).1 ≠ .error (.http status detail) :=
  user_create_duplicate_unhandled 9 sampleUserInput storeOneUser (by decide)

/-- Claim C5: creating a user with a fresh email returns a row with a
positive serial id whose `created_at` equals its `updated_at`; moreover
no handler of the service ever modifies `updated_at`: every user row
present after any handler runs is either a pre-existing row, unchanged,
or a fresh row whose two timestamps are equal. -/
theorem user_create_id_positive_timestamps_equal (now : Int) (u : UserCreate)
    (s : Store) (hpos : 0 < s.nextUserId)
    (hfresh : ∀ r ∈ s.users, r.email ≠ u.email) :
    (∃ row s', create_user now u s = (.ok row, s') ∧
      0 < row.id ∧ row.created_at = row.updated_at) ∧
    (∀ (h : Handler) (t : Store), ∀ r ∈ (h.run t).users,
      r ∈ t.users ∨ r.created_at = r.updated_at) := by
  constructor
  · have hany : s.users.any (fun r => r.email == u.email) = false := by
      rw [List.any_eq_false]
      intro x hx
      simpa using hfresh x hx
    refine ⟨userRowOf now u s.nextUserId,
            { s with users := s.users ++ [userRowOf now u s.nextUserId]
                   , nextUserId := s.nextUserId + 1 }, ?_, hpos, rfl⟩
    simp [create_user, hany]
  · intro h t r hr
    cases h with
    | createUser now' u' =>
      simp only [Handler.run] at hr
      by_cases hc : t.users.any (fun x => x.email == u'.email)
      · simp [create_user, hc] at hr
        exact Or.inl hr
      · simp [create_user, hc] at hr
        rcases hr with hr | hr
        · exact Or.inl hr
        · right
          rw [hr]
          rfl
    | listUsers => exact Or.inl hr
    | getUser i => exact Or.inl hr
    | deleteUser i =>
      simp only [Handler.run] at hr
      cases hf : findUser t i with
      | none =>
        simp [delete_user, hf] at hr
        exact Or.inl hr
      | some r0 =>
        simp [delete_user, hf] at hr
        exact Or.inl ((List.eraseP_sublist _).subset hr)
    | createSignup now' inp =>
      simp only [Handler.run] at hr
      cases hf : t.signups.find? (fun x => x.email == inp.email) with
      | none =>
        left
        simpa [create_waitlist_signup, hf] using hr
      | some r0 =>
        left
        simpa [create_waitlist_signup, hf] using hr
    | waitlistStats a b => exact Or.inl hr
    | listSignups a b => exact Or.inl hr

/-- Witness for C5: creating "u@x.com" in the empty store. -/
theorem user_create_id_positive_timestamps_equal_witness :
    (∃ row s', create_user 7 sampleUserInput Store.empty = (.ok row, s') ∧
      0 < row.id ∧ row.created_at = row.updated_at) ∧
    (∀ (h : Handler) (t : Store), ∀ r ∈ (h.run t).users,
      r ∈ t.users ∨ r.created_at = r.updated_at) :=
  user_create_id_positive_timestamps_equal 7 sampleUserInput Store.empty
    (by decide) (by decide)

/-- Claim C6: for an id absent from the users table, both `get_user` and
`delete_user` fail with Not-Found (HTTP 404, "User not found"), the
latter leaving the store unchanged; and when the id is present (under
the primary-key invariant: at most one row per id), the first delete
succeeds with `{"deleted": True}` while a second delete on the resulting
store fails with Not-Found. -/
theorem user_not_found_and_delete_twice (s : Store) (i : Nat)
    (hpk : s.users.countP (fun r => r.id == i) ≤ 1) :
    (findUser s i = none →
      get_user i s = .error (.http 404 "User not found") ∧
      delete_user i s = (.error (.http 404 "User not found"), s)) ∧
    (∀ r, findUser s i = some r →
      (delete_user i s).1 = .ok { deleted := true } ∧
      delete_user i ((delete_user i s).2) =
        (.error (.http 404 "User not found"), (delete_user i s).2)) := by
  constructor
  · intro hnone
    constructor
    · simp [get_user, hnone]
    · simp [delete_user, hnone]
  · intro r hr
    have herase : (s.users.eraseP (fun x => x.id == i)).find? (fun x => x.id == i) = none :=
      find?_eraseP_eq_none _ _ hpk
    refine ⟨by simp [delete_user, hr], ?_⟩
    have h2 : (delete_user i s).2 = { s with users := s.users.eraseP (fun x => x.id == i) } := by
      simp [delete_user, hr]
    rw [h2]
    have hnone2 : findUser { s with users := s.users.eraseP (fun x => x.id == i) } i = none := by
      simpa [findUser] using herase
    simp [delete_user, hnone2]

/-- Witness for C6: id 2 is absent from the one-user store (get and
delete fail with 404); id 1 is present (first delete succeeds, second
delete on the resulting store fails with 404). -/
theorem user_not_found_and_delete_twice_witness :
    (get_user 2 storeOneUser = .error (.http 404 "User not found") ∧
     delete_user 2 storeOneUser = (.error (.http 404 "User not found"), storeOneUser)) ∧
    ((delete_user 1 storeOneUser).1 = .ok { deleted := true } ∧
     delete_user 1 ((delete_user 1 storeOneUser).2) =
       (.error (.http 404 "User not found"), (delete_user 1 storeOneUser).2)) :=
  ⟨(user_not_found_and_delete_twice storeOneUser 2 (by decide)).1 (by decide),
   (user_not_found_and_delete_twice storeOneUser 1 (by decide)).2 userRowOne (by decide)⟩

/-- Claim C8: deleting a present user id (under the primary-key
invariant, exactly one row carries it) returns `{"deleted": True}` and
removes exactly that row: the waitlist table is untouched, the users
table shrinks by one, every surviving row is a pre-existing row with a
different id, every pre-existing row with a different id survives, and
no row with the deleted id remains. -/
theorem delete_user_removes_exactly_target (s : Store) (i : Nat) (r : UserRow)
    (hfind : findUser s i = some r)
    (hpk : s.users.countP (fun x => x.id == i) = 1) :
    ∃ s', delete_user i s = (.ok { deleted := true }, s') ∧
      s'.signups = s.signups ∧
      s'.users.length + 1 = s.users.length ∧
      (∀ x ∈ s'.users, x ∈ s.users ∧ x.id ≠ i) ∧
      (∀ x ∈ s.users, x.id ≠ i → x ∈ s'.users) ∧
      findUser s' i = none := by
  have hfind' : s.users.find? (fun x => x.id == i) = some r := hfind
  have hmem : r ∈ s.users := List.mem_of_find?_eq_some hfind'
  have hpr := List.find?_some hfind'
  obtain ⟨a, l₁, l₂, hnl₁, hpa, hdecomp, herase⟩ :=
    List.exists_of_eraseP (p := fun x : UserRow => x.id == i) hmem hpr
  have hl₂ : l₂.countP (fun x => x.id == i) = 0 := by
    have h' := hpk
    rw [hdecomp] at h'
    simp [List.countP_cons, hpa] at h'
    omega
  refine ⟨{ s with users := s.users.eraseP (fun x => x.id == i) },
          by simp [delete_user, hfind], rfl, ?_, ?_, ?_, ?_⟩
  · show (s.users.eraseP (fun x => x.id == i)).length + 1 = s.users.length
    rw [herase, hdecomp]
    simp
    omega
  · intro x hx
    replace hx : x ∈ s.users.eraseP (fun y => y.id == i) := hx
    rw [herase] at hx
    rcases List.mem_append.mp hx with h1 | h2
    · refine ⟨by rw [hdecomp]; exact List.mem_append.mpr (Or.inl h1), ?_⟩
      simpa using hnl₁ x h1
    · refine ⟨by rw [hdecomp]; exact List.mem_append.mpr (Or.inr (List.mem_cons_of_mem _ h2)), ?_⟩
      simpa using List.countP_eq_zero.mp hl₂ x h2
  · intro x hx hne
    show x ∈ s.users.eraseP (fun y => y.id == i)
    rw [herase]
    rw [hdecomp] at hx
    rcases List.mem_append.mp hx with h1 | h2
    · exact List.mem_append.mpr (Or.inl h1)
    · rcases List.mem_cons.mp h2 with h3 | h4
      · exfalso
        apply hne
        rw [h3]
        simpa using hpa
      · exact List.mem_append.mpr (Or.inr h4)
  · show findUser { s with users := s.users.eraseP (fun x => x.id == i) } i = none
    have := find?_eraseP_eq_none (fun x : UserRow => x.id == i) s.users (by omega)
    simpa [findUser] using this

/-- Witness for C8: deleting user 1 from the one-user store. -/
theorem delete_user_removes_exactly_target_witness :
    ∃ s', delete_user 1 storeOneUser = (.ok { deleted := true }, s') ∧
      s'.signups = storeOneUser.signups ∧
      s'.users.length + 1 = storeOneUser.users.length ∧
      (∀ x ∈ s'.users, x ∈ storeOneUser.users ∧ x.id ≠ 1) ∧
      (∀ x ∈ storeOneUser.users, x.id ≠ 1 → x ∈ s'.users) ∧
      findUser s' 1 = none :=
  delete_user_removes_exactly_target storeOneUser 1 userRowOne (by decide) (by decide)
